import Mathlib

/-!
Verification of the orchestration core of a recipe-generation web app.

The source is a single React component.  Its orchestration logic is embedded
here as pure state-transition functions over an explicit component state:
camera capture lifecycle, ingredient merging, the recipe-generation pipeline
with its structured-output call and best-effort illustration call, the
variation counter, and the markdown export formatter.  Model-gateway and
device outcomes are passed in as explicit outcome values, so every branch of
the source is represented.
-/

namespace OQueTemAi

/-- Recipe record, after the TypeScript interface of the source: required
name, ingredients, instructions and totalTime, optional tip and imageUrl. -/
structure Recipe where
  name : String
  ingredients : List String
  instructions : List String
  totalTime : String
  tip : Option String
  imageUrl : Option String
deriving Repr, DecidableEq

/-- Value actually produced by parsing the model response body and casting it
to the Recipe interface: no field is checked client-side, so every field may
be missing.  This models the JavaScript object as seen by the component. -/
structure RecipeData where
  name : Option String := none
  ingredients : Option (List String) := none
  instructions : Option (List String) := none
  totalTime : Option String := none
  tip : Option String := none
  imageUrl : Option String := none
deriving Repr, DecidableEq

/-- Result of parsing an empty JSON object body: every field missing. -/
def emptyRecipeData : RecipeData := {}

/-- Component state of the App component: the useState fields, plus
streamLive recording whether an acquired device stream still has running
tracks (true from successful getUserMedia until the tracks are stopped). -/
structure AppState where
  input : String
  preference : String
  recipe : Option RecipeData
  loading : Bool
  isCameraOpen : Bool
  isAnalyzing : Bool
  variationCount : Nat
  streamLive : Bool
deriving Repr, DecidableEq

/-- Outcome of the device-acquisition call (getUserMedia). -/
inductive AcquireOutcome
  | ok
  | failure
deriving Repr, DecidableEq

/-- Outcome of the vision-analysis model call in captureAndAnalyze: the call
throws, or it returns with a text field; a missing text field is modelled as
the empty string, exactly as the source coalesces it. -/
inductive VisionOutcome
  | err
  | ok (text : String)
deriving Repr, DecidableEq

/-- How the body of the structured-generation response parses: JSON.parse
throws on malformed text, or yields some object value. -/
inductive ParseResult
  | malformed
  | value (r : RecipeData)
deriving Repr, DecidableEq

/-- Outcome of the structured recipe-generation call: the await throws
(transport error); the response text is missing or empty, in which case the
source substitutes the empty-object literal before parsing; or the response
has a non-empty body with the given parse result. -/
inductive StructuredOutcome
  | transportError
  | emptyBody
  | body (p : ParseResult)
deriving Repr, DecidableEq

/-- Outcome of the illustration call: the await throws; no candidate part
carries inline data; or inline data with a MIME type and base64 payload. -/
inductive ImageOutcome
  | err
  | noInlinePart
  | inlineData (mimeType : String) (data : String)
deriving Repr, DecidableEq

/-- Whitespace-trimming as JavaScript String.prototype.trim does: strip
whitespace characters from both ends.  Defined over the character list so it
evaluates by kernel reduction. -/
def jsTrim (s : String) : String :=
  String.mk (((s.data.dropWhile Char.isWhitespace).reverse.dropWhile Char.isWhitespace).reverse)

/-- startCamera: on success the modal is open and the stream is attached with
running tracks; on failure the handler opens the modal, the acquisition
throws, and the catch closes it again, never having obtained a stream. -/
def startCamera : AcquireOutcome → AppState → AppState
  | .ok, s => { s with isCameraOpen := true, streamLive := true }
  | .failure, s => { s with isCameraOpen := false }

/-- stopCamera: stops all tracks of the attached stream, if any, and closes
the camera modal. -/
def stopCamera (s : AppState) : AppState :=
  { s with streamLive := false, isCameraOpen := false }

/-- Functional updater passed to setInput when detected ingredients arrive:
a truthy (non-empty) previous value gets the detected list appended after a
comma-and-space separator, an empty previous value is replaced outright. -/
def mergeIngredients (prev detected : String) : String :=
  if prev = "" then detected else prev ++ ", " ++ detected

/-- captureAndAnalyze, given the vision-call outcome, with the video and
canvas refs and the 2d context present.  Success path: a non-empty detected
text is merged into the input, then stopCamera runs, then the finally clause
clears isAnalyzing.  Error path: the catch only alerts, so the modal stays
open and the stream keeps running; the finally clause clears isAnalyzing. -/
def captureAndAnalyze (o : VisionOutcome) (s : AppState) : AppState :=
  match o with
  | .ok t =>
      let s1 := if t = "" then s else { s with input := mergeIngredients s.input t }
      { stopCamera s1 with isAnalyzing := false }
  | .err => { s with isAnalyzing := false }

/-- Value JSON.parse yields inside generateRecipe, or none when the attempt
throws: a transport error propagates, a missing or empty body is defaulted to
the empty-object literal and parses to the empty object, a malformed body
makes JSON.parse throw, and a well-formed body yields its object. -/
def parsedRecipe : StructuredOutcome → Option RecipeData
  | .transportError => none
  | .emptyBody => some emptyRecipeData
  | .body .malformed => none
  | .body (.value r) => some r

/-- True when the structured-generation attempt reaches setRecipe, i.e. the
call returned and parsing did not throw. -/
def genSucceeds (o : StructuredOutcome) : Bool :=
  (parsedRecipe o).isSome

/-- Inner illustration step of generateRecipe: when an inline-data part is
found, imageUrl is set to a data URI that hardcodes the image/png MIME type
around the returned base64 payload; a thrown call or an absent inline part is
swallowed and leaves the object untouched. -/
def attachImage (r : RecipeData) (img : ImageOutcome) : RecipeData :=
  match img with
  | .inlineData _ data => { r with imageUrl := some ("data:image/png;base64," ++ data) }
  | .err => r
  | .noInlinePart => r

/-- generateRecipe: bails out on blank (whitespace-only) input before any
state change; otherwise sets loading, resets the variation counter when the
call is not variation-flagged, runs the structured call, and on success
attaches the best-effort image, stores the recipe and bumps the counter for a
variation-flagged call; the catch swallows failures and the finally clause
clears loading. -/
def generateRecipe (isVariation : Bool) (o : StructuredOutcome) (img : ImageOutcome)
    (s : AppState) : AppState :=
  if jsTrim s.input = "" then s
  else
    let s1 := { s with loading := true,
                       variationCount := if isVariation then s.variationCount else 0 }
    match parsedRecipe o with
    | none => { s1 with loading := false }
    | some r =>
        { s1 with recipe := some (attachImage r img),
                  variationCount := s1.variationCount + (if isVariation then 1 else 0),
                  loading := false }

/-- Click handler of the NOVA BUSCA header button: clears the displayed
recipe, the ingredient text and the preference, and nothing else. -/
def novaBusca (s : AppState) : AppState :=
  { s with recipe := none, input := "", preference := "" }

/-- One press of the variation button, returning the next state and the
number of structured model calls performed.  The button exists only while a
recipe is displayed and is disabled while loading or once the counter has
reached 3; an enabled press runs generateRecipe with the variation flag, and
that call issues one structured request unless the input is blank. -/
def variationClick (o : StructuredOutcome) (img : ImageOutcome) (s : AppState) :
    AppState × Nat :=
  if s.recipe.isSome = true ∧ s.loading = false ∧ s.variationCount < 3 then
    (generateRecipe true o img s, if jsTrim s.input = "" then 0 else 1)
  else
    (s, 0)

/-- Runs a sequence of variation-button presses with the given outcomes,
returning the final state and the number of recipes produced, i.e. the
number of presses whose structured call was made and succeeded. -/
def runVariations : AppState → List (StructuredOutcome × ImageOutcome) → AppState × Nat
  | s, [] => (s, 0)
  | s, (o, img) :: rest =>
      let step := variationClick o img s
      let restRun := runVariations step.1 rest
      (restRun.1, (if step.2 = 1 ∧ genSucceeds o = true then 1 else 0) + restRun.2)

/-- Indexed map mirroring the JavaScript Array.prototype.map callback that
also receives the element index, starting from the given index. -/
def mapWithIndex (f : Nat → String → String) : Nat → List String → List String
  | _, [] => []
  | i, a :: l => f i a :: mapWithIndex f (i + 1) l

/-- Tip section of the markdown export: a truthy (present and non-empty) tip
yields the quoted tip block, otherwise the empty string. -/
def tipBlock : Option String → String
  | some t => if t = "" then "" else "\n\n> 💡 **Dica do Chef:** " ++ t
  | none => ""

/-- getMarkdownRecipe on a present recipe: title line, total-time line,
bulleted ingredient section, numbered instruction section, optional tip
block, and the fixed footer. -/
def getMarkdownRecipe (r : Recipe) : String :=
  let ingredientLines := String.intercalate "\n" (r.ingredients.map (fun ing => "- " ++ ing))
  let instructionLines := String.intercalate "\n"
    (mapWithIndex (fun i step => toString (i + 1) ++ ". " ++ step) 0 r.instructions)
  "# 🍳 " ++ r.name ++ "\n\n⏱ **Tempo total:** " ++ r.totalTime
    ++ "\n\n## 🛒 Ingredientes\n" ++ ingredientLines
    ++ "\n\n## 👨‍🍳 Modo de Preparo\n" ++ instructionLines
    ++ tipBlock r.tip ++ "\n\n---\n*Gerado por O Que Tem Aí?*"

/-- Bulleted ingredient lines as the spec words them: one bullet per
ingredient, in the original order. -/
def bulletList (l : List String) : List String :=
  l.map (fun ing => "- " ++ ing)

/-- Numbered instruction lines as the spec words them: consecutive numbers
starting from the given value, one line per step, in the original order. -/
def numberedFrom : Nat → List String → List String
  | _, [] => []
  | n, a :: l => (toString n ++ ". " ++ a) :: numberedFrom (n + 1) l

/-- MIME type declared by a data URI: the text between the data: scheme
marker and the first semicolon. -/
def dataUriMime (u : String) : String :=
  String.mk ((u.data.drop 5).takeWhile (fun c => c ≠ ';'))

/-- Camera modal open on a live preview, nothing captured yet. -/
def previewingState : AppState :=
  { input := "ovo", preference := "", recipe := none, loading := false,
    isCameraOpen := true, isAnalyzing := false, variationCount := 0, streamLive := true }

/-- Quiescent state with no camera session and no recipe. -/
def idleState : AppState :=
  { input := "arroz", preference := "", recipe := none, loading := false,
    isCameraOpen := false, isAnalyzing := false, variationCount := 0, streamLive := false }

/-- Concrete fully-populated recipe object, as displayed before a new
generation attempt. -/
def priorRecipe : RecipeData :=
  { name := some "Omelete", ingredients := some ["ovo"],
    instructions := some ["Bata o ovo", "Frite"], totalTime := some "10 min",
    tip := none, imageUrl := none }

/-- State displaying priorRecipe with non-blank input, about to generate. -/
def displayedState : AppState :=
  { input := "ovo, arroz", preference := "", recipe := some priorRecipe, loading := false,
    isCameraOpen := false, isAnalyzing := false, variationCount := 0, streamLive := false }

/-- State displaying priorRecipe with the variation counter at the bound. -/
def cappedState : AppState :=
  { input := "ovo, arroz", preference := "", recipe := some priorRecipe, loading := false,
    isCameraOpen := false, isAnalyzing := false, variationCount := 3, streamLive := false }

/-- Concrete outcome list for exercising runVariations: two successes, one
transport failure, then two more successes. -/
def demoEvents : List (StructuredOutcome × ImageOutcome) :=
  [(.body (.value priorRecipe), .err), (.emptyBody, .noInlinePart),
   (.transportError, .err), (.body (.value priorRecipe), .err),
   (.body (.value priorRecipe), .err)]

/-- Fully-populated recipe record matching the export-formatter scenario of
the spec, with a tip. -/
def friedRice : Recipe :=
  { name := "Fried Rice", totalTime := "15 min", ingredients := ["rice", "egg"],
    instructions := ["Heat oil", "Fry egg", "Mix rice"], tip := some "Use day-old rice",
    imageUrl := none }

/-- The same recipe with the tip omitted. -/
def friedRiceNoTip : Recipe :=
  { friedRice with tip := none }

/-- Helper: a variation-flagged generation bumps the counter exactly when the
input is not blank and the structured attempt reaches setRecipe. -/
theorem generateRecipe_true_count (s : AppState) (o : StructuredOutcome) (img : ImageOutcome) :
    (generateRecipe true o img s).variationCount =
      s.variationCount + (if jsTrim s.input ≠ "" ∧ genSucceeds o = true then 1 else 0) := by
  by_cases h : jsTrim s.input = ""
  · simp [generateRecipe, h]
  · cases ho : parsedRecipe o with
    | none => simp [generateRecipe, h, ho, genSucceeds]
    | some r => simp [generateRecipe, h, ho, genSucceeds]

/-- Helper: along any run of variation-button presses, the counter plus the
number of recipes produced never exceeds 3, unless the counter already
started beyond the bound, in which case nothing is produced at all. -/
theorem runVariations_bound (evs : List (StructuredOutcome × ImageOutcome)) :
    ∀ s : AppState, s.variationCount + (runVariations s evs).2 ≤ max 3 s.variationCount := by
  induction evs with
  | nil =>
      intro s
      simp only [runVariations]
      exact Nat.le_max_right 3 s.variationCount
  | cons e rest ih =>
      intro s
      obtain ⟨o, img⟩ := e
      by_cases hg : s.recipe.isSome = true ∧ s.loading = false ∧ s.variationCount < 3
      · by_cases hin : jsTrim s.input = ""
        · have hclick : variationClick o img s = (generateRecipe true o img s, 0) := by
            simp [variationClick, hg, hin]
          have hgen : generateRecipe true o img s = s := by
            simp [generateRecipe, hin]
          simpa [runVariations, hclick, hgen] using ih s
        · have hclick : variationClick o img s = (generateRecipe true o img s, 1) := by
            simp [variationClick, hg, hin]
          have hvc : (generateRecipe true o img s).variationCount =
              s.variationCount + (if genSucceeds o = true then 1 else 0) := by
            rw [generateRecipe_true_count]
            simp [hin]
          obtain ⟨-, -, h3⟩ := hg
          have hle : (generateRecipe true o img s).variationCount ≤ 3 := by
            rw [hvc]
            split <;> omega
          have hrest := ih (generateRecipe true o img s)
          rw [max_eq_left hle, hvc] at hrest
          simp only [runVariations, hclick]
          rw [max_eq_left (by omega : s.variationCount ≤ 3)]
          simp only [true_and]
          omega
      · have hclick : variationClick o img s = (s, 0) := by
          simp only [variationClick, if_neg hg]
        simpa [runVariations, hclick] using ih s

/-- Helper: the indexed map the formatter applies to the instruction list is
the 1-based consecutive numbering, in order. -/
theorem mapWithIndex_eq_numberedFrom (l : List String) :
    ∀ k : Nat, mapWithIndex (fun i step => toString (i + 1) ++ ". " ++ step) k l
      = numberedFrom (k + 1) l := by
  induction l with
  | nil => intro k; rfl
  | cons a t ih =>
      intro k
      simp [mapWithIndex, numberedFrom, ih]

/-- C1 (counterexample): when the vision analysis fails, the session does not
end in Idle with the stream released — the camera modal stays open and the
stream keeps running, contradicting the claim for the failed-analysis exit
path. -/
theorem c1_counterexample :
    ¬((captureAndAnalyze .err previewingState).isCameraOpen = false
      ∧ (captureAndAnalyze .err previewingState).streamLive = false) := by
  decide

/-- C1 (amended): on successful analysis, on user cancel, and on a
device-acquisition failure starting from a state with no held stream, the
capture session ends with the camera UI closed and the device stream
released; the failed-analysis path instead leaves the session open. -/
theorem c1_capture_exit_paths (s : AppState) (t : String) :
    ((captureAndAnalyze (.ok t) s).isCameraOpen = false
      ∧ (captureAndAnalyze (.ok t) s).streamLive = false)
    ∧ ((stopCamera s).isCameraOpen = false ∧ (stopCamera s).streamLive = false)
    ∧ (s.streamLive = false →
        (startCamera .failure s).isCameraOpen = false
          ∧ (startCamera .failure s).streamLive = false) :=
  ⟨⟨rfl, rfl⟩, ⟨rfl, rfl⟩, fun h => ⟨rfl, h⟩⟩

/-- C1 (witness): the amended theorem evaluated on concrete states. -/
theorem c1_witness :
    (captureAndAnalyze (.ok "tomate") previewingState).isCameraOpen = false
    ∧ (startCamera .failure idleState).streamLive = false :=
  ⟨(c1_capture_exit_paths previewingState "tomate").1.1,
   ((c1_capture_exit_paths idleState "tomate").2.2 (by decide)).2⟩

/-- C2 (code bug): with a recipe already displayed and non-blank input, a
structured call that returns an empty body is defaulted to the empty-object
literal, parsed, and surfaced: the displayed recipe becomes the empty object,
every required field missing, replacing the prior recipe — the claim (and the
render path, which reads the ingredients array of the surfaced recipe)
require that no partial Recipe be surfaced. -/
theorem c2_empty_body_partial_recipe :
    (generateRecipe false .emptyBody .err displayedState).recipe = some emptyRecipeData
    ∧ displayedState.recipe = some priorRecipe
    ∧ some emptyRecipeData ≠ displayedState.recipe
    ∧ emptyRecipeData.name = none ∧ emptyRecipeData.ingredients = none := by
  decide

/-- C3: once the counter reaches 3 a variation press is rejected with zero
model calls and no state change, and any run of variation presses from a
fresh counter produces at most 3 recipes — at most 4 in total counting the
original. -/
theorem c3_variation_bound (s : AppState) (evs : List (StructuredOutcome × ImageOutcome))
    (o : StructuredOutcome) (img : ImageOutcome) :
    (3 ≤ s.variationCount → variationClick o img s = (s, 0))
    ∧ (s.variationCount = 0 →
        (runVariations s evs).2 ≤ 3 ∧ 1 + (runVariations s evs).2 ≤ 4) := by
  constructor
  · intro h3
    have hneg : ¬(s.recipe.isSome = true ∧ s.loading = false ∧ s.variationCount < 3) := by
      rintro ⟨-, -, hlt⟩
      omega
    simp [variationClick, hneg]
  · intro h0
    have hb := runVariations_bound evs s
    rw [h0] at hb
    simp at hb
    omega

/-- C3 (witness): at the bound the press is a no-op with no call, and a
five-press run from a fresh counter yields only 3 recipes. -/
theorem c3_witness :
    variationClick .transportError .err cappedState = (cappedState, 0)
    ∧ (runVariations displayedState demoEvents).2 ≤ 3 :=
  ⟨(c3_variation_bound cappedState [] .transportError .err).1 (by decide),
   ((c3_variation_bound displayedState demoEvents .transportError .err).2 (by decide)).1⟩

/-- C4: a failed variation-flagged generation leaves the counter unchanged, a
successful one increments it by one, and starting a fresh non-variation
generation resets it to 0. -/
theorem c4_counter_semantics (s : AppState) (o : StructuredOutcome) (img : ImageOutcome)
    (hin : jsTrim s.input ≠ "") :
    (genSucceeds o = false → (generateRecipe true o img s).variationCount = s.variationCount)
    ∧ (genSucceeds o = true → (generateRecipe true o img s).variationCount = s.variationCount + 1)
    ∧ (generateRecipe false o img s).variationCount = 0 := by
  refine ⟨fun hf => ?_, fun ht => ?_, ?_⟩
  · rw [generateRecipe_true_count]
    simp [hf]
  · rw [generateRecipe_true_count]
    simp [hin, ht]
  · cases ho : parsedRecipe o with
    | none => simp [generateRecipe, hin, ho]
    | some r => simp [generateRecipe, hin, ho]

/-- C4 (witness): counter behavior evaluated on a concrete displayed state
for a failing, a succeeding, and a fresh generation. -/
theorem c4_witness :
    (generateRecipe true .transportError .err displayedState).variationCount =
      displayedState.variationCount
    ∧ (generateRecipe true (.body (.value priorRecipe)) .err displayedState).variationCount =
      displayedState.variationCount + 1
    ∧ (generateRecipe false .emptyBody .err displayedState).variationCount = 0 :=
  ⟨(c4_counter_semantics displayedState .transportError .err (by decide)).1 (by decide),
   (c4_counter_semantics displayedState (.body (.value priorRecipe)) .err (by decide)).2.1
     (by decide),
   (c4_counter_semantics displayedState .emptyBody .err (by decide)).2.2⟩

/-- C5 (counterexample): the new-search action applied to a state whose
variation counter is 3 leaves the counter at 3, not 0, contradicting the
claim that clearing the session resets the counter. -/
theorem c5_counterexample :
    (novaBusca cappedState).variationCount = 3
    ∧ (novaBusca cappedState).variationCount ≠ 0 := by
  decide

/-- C5 (amended): the new-search action clears the displayed recipe, the
ingredient text and the preference but leaves the variation counter
unchanged; the counter is reset to 0 only when the next fresh non-variation
generation starts. -/
theorem c5_nova_busca (s : AppState) :
    (novaBusca s).recipe = none ∧ (novaBusca s).input = "" ∧ (novaBusca s).preference = ""
    ∧ (novaBusca s).variationCount = s.variationCount
    ∧ (∀ (s2 : AppState) (o : StructuredOutcome) (img : ImageOutcome),
        jsTrim s2.input ≠ "" → (generateRecipe false o img s2).variationCount = 0) := by
  refine ⟨rfl, rfl, rfl, rfl, ?_⟩
  intro s2 o img hin
  cases ho : parsedRecipe o with
  | none => simp [generateRecipe, hin, ho]
  | some r => simp [generateRecipe, hin, ho]

/-- C5 (witness): the amended theorem evaluated on concrete states. -/
theorem c5_witness :
    (novaBusca cappedState).variationCount = cappedState.variationCount
    ∧ (generateRecipe false .emptyBody .noInlinePart displayedState).variationCount = 0 :=
  ⟨(c5_nova_busca cappedState).2.2.2.1,
   (c5_nova_busca idleState).2.2.2.2 displayedState .emptyBody .noInlinePart (by decide)⟩

/-- C6: merging detected ingredients into a non-empty field appends them
after a comma-and-space separator, an empty field is replaced verbatim, no
deduplication happens, and this is exactly the update captureAndAnalyze
applies to the input on a non-empty detection. -/
theorem c6_merge_policy (p d : String) (hp : p ≠ "") :
    mergeIngredients p d = p ++ ", " ++ d
    ∧ (∀ d2 : String, mergeIngredients "" d2 = d2)
    ∧ mergeIngredients "egg, rice" "tomato, onion" = "egg, rice, tomato, onion"
    ∧ mergeIngredients "egg" "egg" = "egg, egg"
    ∧ (∀ (s : AppState) (t : String), t ≠ "" →
        (captureAndAnalyze (.ok t) s).input = mergeIngredients s.input t) := by
  refine ⟨by simp [mergeIngredients, hp], fun d2 => rfl, by decide, by decide, ?_⟩
  intro s t ht
  simp [captureAndAnalyze, stopCamera, ht]

/-- C6 (witness): the merge policy evaluated on the concrete example pair of
the spec. -/
theorem c6_witness :
    mergeIngredients "egg, rice" "tomato, onion" = "egg, rice, tomato, onion" :=
  (c6_merge_policy "egg, rice" "tomato, onion" (by decide)).2.2.1

/-- C7: the export formatter renders, in order, the title line with the
name, the total-time line, the bulleted ingredient section in original
order, the 1-based numbered instruction section in original order, then the
tip block exactly when a non-empty tip is present, then the footer; an
absent tip contributes the empty string, so no dangling heading. -/
theorem c7_export_format (r : Recipe) :
    getMarkdownRecipe r =
      "# 🍳 " ++ r.name ++ "\n\n⏱ **Tempo total:** " ++ r.totalTime
        ++ "\n\n## 🛒 Ingredientes\n" ++ String.intercalate "\n" (bulletList r.ingredients)
        ++ "\n\n## 👨‍🍳 Modo de Preparo\n" ++ String.intercalate "\n" (numberedFrom 1 r.instructions)
        ++ tipBlock r.tip ++ "\n\n---\n*Gerado por O Que Tem Aí?*"
    ∧ (r.tip = none → tipBlock r.tip = "")
    ∧ (∀ t : String, r.tip = some t → t ≠ "" →
        tipBlock r.tip = "\n\n> 💡 **Dica do Chef:** " ++ t) := by
  refine ⟨?_, fun h => by rw [h]; rfl, fun t h ht => by rw [h]; simp [tipBlock, ht]⟩
  have hnum : mapWithIndex (fun i step => toString (i + 1) ++ ". " ++ step) 0 r.instructions
      = numberedFrom 1 r.instructions := mapWithIndex_eq_numberedFrom r.instructions 0
  simp only [getMarkdownRecipe, bulletList, hnum]

/-- C7 (witness): the tip-block clauses evaluated on the concrete scenario
recipe of the spec, with and without a tip. -/
theorem c7_witness :
    tipBlock friedRiceNoTip.tip = ""
    ∧ tipBlock friedRice.tip = "\n\n> 💡 **Dica do Chef:** " ++ "Use day-old rice" :=
  ⟨(c7_export_format friedRiceNoTip).2.1 rfl,
   (c7_export_format friedRice).2.2 "Use day-old rice" rfl (by decide)⟩

/-- C8: when the structured call succeeds, a failed or empty illustration
call is swallowed: the parsed recipe is surfaced unchanged, with its imageUrl
still absent, and the cycle counts as a success. -/
theorem c8_illustration_best_effort (s : AppState) (r : RecipeData) (b : Bool)
    (img : ImageOutcome) (hin : jsTrim s.input ≠ "") (hurl : r.imageUrl = none)
    (hfail : img = .err ∨ img = .noInlinePart) :
    (generateRecipe b (.body (.value r)) img s).recipe = some r
    ∧ r.imageUrl = none := by
  refine ⟨?_, hurl⟩
  have hatt : attachImage r img = r := by
    rcases hfail with h | h <;> rw [h] <;> rfl
  simp [generateRecipe, hin, parsedRecipe, hatt]

/-- C8 (witness): a concrete successful cycle whose illustration call threw
still surfaces the parsed recipe without an image. -/
theorem c8_witness :
    (generateRecipe false (.body (.value priorRecipe)) .err displayedState).recipe
      = some priorRecipe :=
  (c8_illustration_best_effort displayedState priorRecipe false .err (by decide) rfl
    (Or.inl rfl)).1

/-- C9 (counterexample): illustration bytes returned with MIME type
image/jpeg are embedded in a data URI that declares image/png, so the
declared MIME type does not match the returned one. -/
theorem c9_counterexample :
    (attachImage emptyRecipeData (.inlineData "image/jpeg" "QUJD")).imageUrl
      = some "data:image/png;base64,QUJD"
    ∧ dataUriMime "data:image/png;base64,QUJD" = "image/png"
    ∧ dataUriMime "data:image/png;base64,QUJD" ≠ "image/jpeg" := by
  decide

/-- C9 (amended): the imageUrl attached on a successful illustration call is
a data URI embedding the returned base64 payload whose declared MIME type is
always image/png, whatever MIME type came back with the bytes. -/
theorem c9_data_uri (r : RecipeData) (mime data : String) :
    (attachImage r (.inlineData mime data)).imageUrl
      = some ("data:image/png;base64," ++ data) :=
  rfl

/-- C10: a successful vision call with an empty text result leaves the
ingredient input untouched, and the session still closes with the camera UI
shut and the stream released. -/
theorem c10_empty_vision_text (s : AppState) :
    (captureAndAnalyze (.ok "") s).input = s.input
    ∧ (captureAndAnalyze (.ok "") s).isCameraOpen = false
    ∧ (captureAndAnalyze (.ok "") s).streamLive = false := by
  refine ⟨?_, rfl, rfl⟩
  simp [captureAndAnalyze, stopCamera]

end OQueTemAi
